import Mathlib

/-!
Verification of the lokalise-bulk-add-keys tool (src/src/main.rs).

The tool reads a YAML file of localization keys, resolves a Lokalise project
by name, pages through the project's existing key names, pre-checks for
duplicates, bulk-creates the new keys, and reconciles the requested keys
against the names confirmed by the create response.

The embedding below models:
  * the data model (`KeyToAdd`, `Translation`, `Project`, `KeyName`, ...);
  * serde-style decoding of the YAML input and of the two possible
    bulk-create response shapes, over a generic `Json` value type;
  * the pagination loop `all_keys` (page size 1000, stop when a page is
    strictly shorter than 1000), with the platform-name-consistency check;
  * the duplicate pre-check and the post-create reconciliation;
  * `try_main`, the whole run after the file has been read, with explicit
    tracking of the observable effects (env-var read, requests issued and
    their targets) and of the printed report lines.
-/

/-- A generic JSON/YAML value, the data model shared by the input file and
the remote API responses. -/
inductive Json where
  | null
  | bool (b : Bool)
  | num (n : Int)
  | str (s : String)
  | arr (elems : List Json)
  | obj (fields : List (String × Json))

/-- First field of an object with the given name (serde looks fields up by
name, ignoring unknown fields). -/
def lookupField (fields : List (String × Json)) (name : String) : Option Json :=
  (fields.find? (fun f => decide (f.1 = name))).map (fun f => f.2)

/-- `Translation` from main.rs: a singular text or a singular/plural pair. -/
inductive Translation where
  | singular (text : String)
  | plural (singularText : String) (pluralText : String)
deriving DecidableEq

/-- `KeyToAdd` from main.rs: one requested key from the input file. -/
structure KeyToAdd where
  key : String
  translation : Translation
  tags : List String
deriving DecidableEq

/-- `Data` from main.rs: the whole input document. -/
structure Data where
  keys : List KeyToAdd
deriving DecidableEq

/-- `Project` from main.rs. -/
structure Project where
  id : String
  name : String
  base_language_iso : String
deriving DecidableEq

/-- `KeyName` from main.rs: the four per-platform names of a remote key. -/
structure KeyName where
  ios : String
  android : String
  web : String
  other : String
deriving DecidableEq

/-- `KeyResponse` from main.rs. -/
structure KeyResponse where
  key_name : KeyName
deriving DecidableEq

/-- `KeysResponse` from main.rs: the success shape of list/create responses. -/
structure KeysResponse where
  keys : List KeyResponse
deriving DecidableEq

/-- `ErrorResponseInner` from main.rs. -/
structure ErrorResponseInner where
  code : Nat
  message : String
deriving DecidableEq

/-- `ErrorResponse` from main.rs: the error shape of API responses. -/
structure ErrorResponse where
  error : ErrorResponseInner
deriving DecidableEq

/-- Whether an `Except` holds a success value. -/
def isOkB {ε α : Type} : Except ε α → Bool
  | .ok _ => true
  | .error _ => false

/-! ### serde-style decoders for the bulk-create response shapes -/

/-- Decode `KeyName`: an object with the four platform fields, all strings. -/
def decodeKeyName : Json → Except String KeyName
  | .obj fields =>
    match lookupField fields "ios", lookupField fields "android",
          lookupField fields "web", lookupField fields "other" with
    | some (.str i), some (.str a), some (.str w), some (.str o) =>
      .ok ⟨i, a, w, o⟩
    | _, _, _, _ => .error "invalid key_name"
  | _ => .error "expected map for key_name"

/-- Decode `KeyResponse`: an object with a `key_name` field. -/
def decodeKeyResponse : Json → Except String KeyResponse
  | .obj fields =>
    match lookupField fields "key_name" with
    | some v =>
      match decodeKeyName v with
      | .ok kn => .ok ⟨kn⟩
      | .error e => .error e
    | none => .error "missing field key_name"
  | _ => .error "expected map for key"

/-- Decode each element of a `keys` array as a `KeyResponse`. -/
def decodeKeyList : List Json → Except String (List KeyResponse)
  | [] => .ok []
  | v :: rest =>
    match decodeKeyResponse v with
    | .ok k =>
      match decodeKeyList rest with
      | .ok ks => .ok (k :: ks)
      | .error e => .error e
    | .error e => .error e

/-- Decode the success shape `{keys: [...]}` (unknown fields ignored,
as serde does). -/
def decodeKeysResponse : Json → Except String KeysResponse
  | .obj fields =>
    match lookupField fields "keys" with
    | some (.arr xs) =>
      match decodeKeyList xs with
      | .ok ks => .ok ⟨ks⟩
      | .error e => .error e
    | some _ => .error "expected sequence for keys"
    | none => .error "missing field keys"
  | _ => .error "expected map"

/-- Decode `{code, message}`; `code` is a u32 as in the Rust struct. -/
def decodeErrorInner : Json → Except String ErrorResponseInner
  | .obj fields =>
    match lookupField fields "code", lookupField fields "message" with
    | some (.num n), some (.str m) =>
      if 0 ≤ n ∧ n < 4294967296 then .ok ⟨n.toNat, m⟩ else .error "invalid u32"
    | _, _ => .error "invalid error body"
  | _ => .error "expected map for error"

/-- Decode the error shape `{error: {code, message}}` (unknown fields
ignored, as serde does). -/
def decodeErrorResponse : Json → Except String ErrorResponse
  | .obj fields =>
    match lookupField fields "error" with
    | some v =>
      match decodeErrorInner v with
      | .ok e => .ok ⟨e⟩
      | .error e => .error e
    | none => .error "missing field error"
  | _ => .error "expected map"

/-! ### serde-style decoder for the input file -/

/-- Decode a YAML sequence of strings (the `tags` field). -/
def decodeStringList : List Json → Except String (List String)
  | [] => .ok []
  | .str s :: rest =>
    match decodeStringList rest with
    | .ok xs => .ok (s :: xs)
    | .error e => .error e
  | _ :: _ => .error "expected string"

/-- The fields of a key element left over after the declared fields `key`
and `tags` are consumed; serde's `#[serde(flatten)]` feeds exactly these to
the `Translation` enum decoder. -/
def restFields (fields : List (String × Json)) : List (String × Json) :=
  fields.filter (fun f => decide (f.1 ≠ "key" ∧ f.1 ≠ "tags"))

/-- Decode the flattened externally-tagged `Translation` enum: the leftover
fields must be exactly one entry, named either `translation` (string) or
`translations` (object with `singular` and `plural` strings). -/
def decodeTranslation : List (String × Json) → Except String Translation
  | [(name, v)] =>
    if name = "translation" then
      match v with
      | .str s => .ok (.singular s)
      | _ => .error "expected string for translation"
    else if name = "translations" then
      match v with
      | .obj fs =>
        match lookupField fs "singular", lookupField fs "plural" with
        | some (.str sg), some (.str pl) => .ok (.plural sg pl)
        | _, _ => .error "invalid translations object"
      | _ => .error "expected map for translations"
    else .error "unknown translation variant"
  | _ => .error "expected exactly one translation field"

/-- Decode the optional `tags` field: absent means the serde default `[]`,
present means a sequence of strings. -/
def decodeTags (fields : List (String × Json)) : Except String (List String) :=
  match lookupField fields "tags" with
  | none => .ok []
  | some (.arr xs) => decodeStringList xs
  | some _ => .error "expected sequence for tags"

/-- Decode one key element: required `key` string, optional `tags`
sequence (defaults to `[]`), and the flattened `Translation`. -/
def decodeKeyToAdd : Json → Except String KeyToAdd
  | .obj fields =>
    match lookupField fields "key" with
    | some (.str k) =>
      match decodeTags fields with
      | .ok tags =>
        match decodeTranslation (restFields fields) with
        | .ok tr => .ok ⟨k, tr, tags⟩
        | .error e => .error e
      | .error e => .error e
    | some _ => .error "expected string for key"
    | none => .error "missing field key"
  | _ => .error "expected map for key element"

/-- Decode each element of the top-level `keys` sequence. -/
def decodeKeyToAddList : List Json → Except String (List KeyToAdd)
  | [] => .ok []
  | v :: rest =>
    match decodeKeyToAdd v with
    | .ok k =>
      match decodeKeyToAddList rest with
      | .ok ks => .ok (k :: ks)
      | .error e => .error e
    | .error e => .error e

/-- Decode the whole input document: `{keys: [...]}`. -/
def decodeData : Json → Except String Data
  | .obj fields =>
    match lookupField fields "keys" with
    | some (.arr xs) =>
      match decodeKeyToAddList xs with
      | .ok ks => .ok ⟨ks⟩
      | .error e => .error e
    | some _ => .error "expected sequence for keys"
    | none => .error "missing field keys"
  | _ => .error "expected map"

/-! ### all_keys: the pagination loop -/

/-- The error message raised for a key whose per-platform names differ. -/
def platformErr : String := "Key with different names per platform isn\x27t supported"

/-- The Rust consistency condition on one remote key (main.rs line 138). -/
def consistent (k : KeyName) : Prop :=
  k.ios = k.android ∧ k.android = k.web ∧ k.web = k.other

instance (k : KeyName) : Decidable (consistent k) := by
  unfold consistent; infer_instance

/-- The body of the `for key in keys` loop inside `all_keys`: validate each
key of one page and insert its shared name into the accumulating set. -/
def processPage : List KeyName → Finset String → Except String (Finset String)
  | [], acc => .ok acc
  | k :: rest, acc =>
    if k.ios = k.android ∧ k.android = k.web ∧ k.web = k.other then
      processPage rest (insert k.ios acc)
    else
      .error platformErr

/-- The pagination loop of `all_keys`. The remote is modelled by `pages`,
the successive responses; past the end every response is the empty page.
Returns the listing result plus the list of page numbers requested. -/
def allKeysLoop (acc : Finset String) (page : Nat) :
    List (List KeyName) → Except String (Finset String) × List Nat
  | [] => (.ok acc, [page])
  | p :: rest =>
    match processPage p acc with
    | .error e => (.error e, [page])
    | .ok acc2 =>
      if p.length < 1000 then (.ok acc2, [page])
      else
        let r := allKeysLoop acc2 (page + 1) rest
        (r.1, page :: r.2)

/-- `LokaliseClient::all_keys`: page size 1000, starting at page 1. -/
def all_keys (pages : List (List KeyName)) :
    Except String (Finset String) × List Nat :=
  allKeysLoop ∅ 1 pages

/-- Number of requests the loop issues for a given remote page sequence:
one request per leading page of length at least 1000, plus the final short
page (or the empty page past the end). -/
def requestCount (pages : List (List KeyName)) : Nat :=
  (pages.takeWhile (fun p => decide (1000 ≤ p.length))).length + 1

/-- The deduplicated union of the ios names of the given pages. -/
def pageNames : List (List KeyName) → Finset String
  | [] => ∅
  | p :: rest => (p.map KeyName.ios).toFinset ∪ pageNames rest

/-! ### pre-check, create, reconcile -/

/-- The duplicate pre-check loop of `try_main` (main.rs lines 62-66). -/
def pre_check : List KeyToAdd → Finset String → Except String Unit
  | [], _ => .ok ()
  | k :: rest, existing =>
    if k.key ∈ existing then
      .error ("The key `" ++ k.key ++ "` already exists")
    else
      pre_check rest existing

/-- One printed report line. -/
inductive Line where
  | keysDump (keys : List KeyToAdd)
  | success (key : String)
  | failure (key : String)
  | nothingToDo
deriving DecidableEq

/-- The confirmed-created name set: the `ios` field of each response key,
collected into a set (main.rs lines 222-225). -/
def createdKeys (keys : List KeyResponse) : Finset String :=
  (keys.map (fun k => k.key_name.ios)).toFinset

/-- The reconciliation tail of `create_keys` (main.rs lines 222-254):
partition the requested keys by membership in the confirmed set, then
report and compute the overall result. -/
def reconcile (keys_to_create : List KeyToAdd) (keys : List KeyResponse) :
    List Line × Except String Unit :=
  let keys_created :=
    (keys_to_create.partition (fun k => decide (k.key ∈ createdKeys keys))).1
  let keys_not_created :=
    (keys_to_create.partition (fun k => decide (k.key ∈ createdKeys keys))).2
  if keys_created = [] ∧ keys_not_created = [] then
    ([Line.nothingToDo], .ok ())
  else if keys_not_created = [] then
    (keys_created.map (fun k => Line.success k.key), .ok ())
  else
    (keys_created.map (fun k => Line.success k.key) ++
       keys_not_created.map (fun k => Line.failure k.key),
     .error "Failed to create some keys")

/-- `LokaliseClient::create_keys` after the POST: decode the response body
as both shapes, branch on which decode succeeded (main.rs lines 198-220),
then reconcile. -/
def create_keys (keys_to_create : List KeyToAdd) (resp : Json) :
    List Line × Except String Unit :=
  match decodeKeysResponse resp, decodeErrorResponse resp with
  | .ok keysResp, .error _ => reconcile keys_to_create keysResp.keys
  | .error _, .ok errResp =>
    if errResp.error.message = "Unauthorized" then
      ([], .error ("Lokalise request failed\n" ++
        "Got 401 unauthorized. Please ensure your auth token is correct and has both read and write permissions"))
    else
      ([], .error ("Lokalise request failed\nGot " ++
        toString errResp.error.code ++ " " ++ errResp.error.message))
  | .ok _, .ok _ => ([], .error "Lokalise request both failed and succeeded...?")
  | .error _, .error _ => ([], .error "Failed to parse lokalise response")

/-! ### try_main -/

/-- The command-line options (`Opt` in main.rs; the input path is consumed
by the file read, which happens before the part modelled here). -/
structure Opt where
  project : String
  dry_run : Bool

/-- The observable effects of a run: whether the token env var was read,
whether `GET /projects` was issued, which key-list page numbers were
requested and against which project id, and whether (and against which
project id) the bulk-create POST was issued. -/
structure Effects where
  tokenRead : Bool
  projectsRequested : Bool
  keyListPages : List Nat
  keyListTarget : Option String
  createTarget : Option String
deriving DecidableEq

/-- The outcome of a run: printed lines, final result, observable effects. -/
structure RunResult where
  lines : List Line
  result : Except String Unit
  effects : Effects

/-- `try_main` after the input file has been read: `file` is the parsed
YAML document, `token` the value of `LOKALISE_API_TOKEN` if set, `projects`
the remote project list, `pages` the remote key pages, and `createResp` the
body the bulk-create endpoint answers with. -/
def try_main (opt : Opt) (file : Json) (token : Option String)
    (projects : List Project) (pages : List (List KeyName))
    (createResp : Json) : RunResult :=
  match decodeData file with
  | .error e => ⟨[], .error e, ⟨false, false, [], none, none⟩⟩
  | .ok data =>
    if opt.dry_run then
      ⟨[Line.keysDump data.keys], .ok (), ⟨false, false, [], none, none⟩⟩
    else
      match token with
      | none =>
        ⟨[], .error "Missing env var LOKALISE_API_TOKEN",
         ⟨true, false, [], none, none⟩⟩
      | some _ =>
        match projects.find? (fun p => decide (p.name = opt.project)) with
        | none =>
          ⟨[], .error ("No project name \x27" ++ opt.project ++ "\x27 was found"),
           ⟨true, true, [], none, none⟩⟩
        | some project =>
          match all_keys pages with
          | (.error e, reqs) =>
            ⟨[], .error e, ⟨true, true, reqs, some project.id, none⟩⟩
          | (.ok existingKeys, reqs) =>
            match pre_check data.keys existingKeys with
            | .error e =>
              ⟨[], .error e, ⟨true, true, reqs, some project.id, none⟩⟩
            | .ok _ =>
              let out := create_keys data.keys createResp
              ⟨out.1, out.2, ⟨true, true, reqs, some project.id, some project.id⟩⟩

/-! ### Concrete inputs used to exercise the model -/

/-- A consistent remote key named `a` on all four platforms. -/
def kA : KeyName := ⟨"a", "a", "a", "a"⟩

/-- A consistent remote key named `b` on all four platforms. -/
def kB : KeyName := ⟨"b", "b", "b", "b"⟩

/-- A remote key whose android name differs from the other platforms. -/
def kBad : KeyName := ⟨"a", "b", "a", "a"⟩

/-- A consistent remote key named `greeting`. -/
def kGreeting : KeyName := ⟨"greeting", "greeting", "greeting", "greeting"⟩

/-- Remote pages of sizes [1000, 1000, 400]. -/
def pages3 : List (List KeyName) :=
  [List.replicate 1000 kA, List.replicate 1000 kA, List.replicate 400 kB]

/-- A single remote page of exactly 1000 keys. -/
def pages1 : List (List KeyName) := [List.replicate 1000 kA]

/-- A requested key with a singular translation and no tags. -/
def sampleKey (name : String) : KeyToAdd := ⟨name, .singular "hello", []⟩

/-- Three requested keys a, b, c. -/
def req5 : List KeyToAdd := [sampleKey "a", sampleKey "b", sampleKey "c"]

/-- A create response confirming only `a` and `c`. -/
def keys5 : List KeyResponse := [⟨kA⟩, ⟨⟨"c", "c", "c", "c"⟩⟩]

/-- A remote project whose name does not match. -/
def proj1 : Project := ⟨"id1", "other", "en"⟩

/-- The first remote project named `myproj`. -/
def proj2 : Project := ⟨"id2", "myproj", "en"⟩

/-- A second remote project also named `myproj`. -/
def proj3 : Project := ⟨"id3", "myproj", "da"⟩

/-- An input document with an empty keys list. -/
def emptyKeysFile : Json := .obj [("keys", .arr [])]

/-- An input document with the single key `greeting`. -/
def oneKeyFile : Json :=
  .obj [("keys", .arr
    [.obj [("key", .str "greeting"), ("translation", .str "Hello")]])]

/-- A success-shaped create response listing no keys. -/
def okRespEmpty : Json := .obj [("keys", .arr [])]

/-- An error-shaped response with message exactly `Unauthorized`. -/
def errRespUnauthorized : Json :=
  .obj [("error", .obj [("code", .num 401), ("message", .str "Unauthorized")])]

/-- An error-shaped response with another message. -/
def errRespOther : Json :=
  .obj [("error", .obj [("code", .num 500), ("message", .str "boom")])]

/-- A response body decoding as both the success and the error shape. -/
def bothResp : Json :=
  .obj [("keys", .arr []),
        ("error", .obj [("code", .num 1), ("message", .str "m")])]

/-! ### Helper lemmas: pagination -/

theorem processPage_ok : ∀ (page : List KeyName) (acc : Finset String),
    (∀ k ∈ page, consistent k) →
    processPage page acc = .ok (acc ∪ (page.map KeyName.ios).toFinset)
  | [], acc, _ => by simp [processPage]
  | k :: rest, acc, h => by
    have hk : k.ios = k.android ∧ k.android = k.web ∧ k.web = k.other := h k (by simp)
    have ih := processPage_ok rest (insert k.ios acc)
      (fun x hx => h x (List.mem_cons_of_mem k hx))
    unfold processPage
    rw [if_pos hk, ih]
    congr 1
    simp [Finset.insert_union, Finset.union_insert]

theorem processPage_error : ∀ (page : List KeyName) (acc : Finset String),
    (∃ k ∈ page, ¬ consistent k) →
    processPage page acc = .error platformErr
  | [], _, h => by simp at h
  | k :: rest, acc, h => by
    by_cases hk : k.ios = k.android ∧ k.android = k.web ∧ k.web = k.other
    · unfold processPage
      rw [if_pos hk]
      apply processPage_error
      rcases h with ⟨x, hx, hxc⟩
      rcases List.mem_cons.mp hx with rfl | hx2
      · exact absurd hk hxc
      · exact ⟨x, hx2, hxc⟩
    · unfold processPage
      rw [if_neg hk]

theorem requestCount_cons_short {p : List KeyName} (rest : List (List KeyName))
    (hlen : p.length < 1000) : requestCount (p :: rest) = 1 := by
  unfold requestCount
  rw [List.takeWhile_cons_of_neg]
  · simp
  · simp only [decide_eq_true_eq]
    omega

theorem requestCount_cons_long {p : List KeyName} (rest : List (List KeyName))
    (hlen : ¬ p.length < 1000) : requestCount (p :: rest) = requestCount rest + 1 := by
  unfold requestCount
  rw [List.takeWhile_cons_of_pos]
  · simp
  · simp only [decide_eq_true_eq]
    omega

theorem allKeysLoop_ok : ∀ (pages : List (List KeyName)) (acc : Finset String) (page : Nat),
    (∀ p ∈ pages, ∀ k ∈ p, consistent k) →
    allKeysLoop acc page pages =
      (.ok (acc ∪ pageNames (pages.take (requestCount pages))),
       List.range' page (requestCount pages))
  | [], acc, page, _ => by
    simp [allKeysLoop, requestCount, pageNames]
  | p :: rest, acc, page, h => by
    have hp := processPage_ok p acc (h p (by simp))
    by_cases hlen : p.length < 1000
    · simp only [allKeysLoop, hp, if_pos hlen, requestCount_cons_short rest hlen]
      simp [pageNames]
    · have ih := allKeysLoop_ok rest (acc ∪ (p.map KeyName.ios).toFinset) (page + 1)
        (fun q hq => h q (List.mem_cons_of_mem p hq))
      rw [requestCount_cons_long rest hlen, List.take_succ_cons, List.range'_succ]
      simp only [allKeysLoop, hp, if_neg hlen, ih, pageNames, Finset.union_assoc]

theorem allKeysLoop_error : ∀ (pages : List (List KeyName)) (acc : Finset String) (page : Nat),
    (∃ p ∈ pages.take (requestCount pages), ∃ k ∈ p, ¬ consistent k) →
    (allKeysLoop acc page pages).1 = .error platformErr
  | [], _, _, h => by simp [requestCount] at h
  | p :: rest, acc, page, h => by
    by_cases hall : ∀ k ∈ p, consistent k
    · have hp := processPage_ok p acc hall
      by_cases hlen : p.length < 1000
      · exfalso
        rw [requestCount_cons_short rest hlen] at h
        simp only [List.take_succ_cons, List.take_zero, List.mem_singleton] at h
        rcases h with ⟨q, rfl, k, hk, hkc⟩
        exact hkc (hall k hk)
      · rw [requestCount_cons_long rest hlen, List.take_succ_cons] at h
        have hrest : ∃ q ∈ rest.take (requestCount rest), ∃ k ∈ q, ¬ consistent k := by
          rcases h with ⟨q, hq, k, hk, hkc⟩
          rcases List.mem_cons.mp hq with rfl | hq2
          · exact absurd (hall k hk) hkc
          · exact ⟨q, hq2, k, hk, hkc⟩
        simp only [allKeysLoop, hp, if_neg hlen]
        exact allKeysLoop_error rest _ _ hrest
    · push_neg at hall
      have hp := processPage_error p acc hall
      simp only [allKeysLoop, hp]

theorem mem_pageNames : ∀ (l : List (List KeyName)) (p : List KeyName) (k : KeyName),
    p ∈ l → k ∈ p → k.ios ∈ pageNames l
  | [], p, _, hp, _ => absurd hp (List.not_mem_nil p)
  | q :: rest, p, k, hp, hk => by
    rcases List.mem_cons.mp hp with rfl | h2
    · simp only [pageNames, Finset.mem_union, List.mem_toFinset, List.mem_map]
      exact Or.inl ⟨k, hk, rfl⟩
    · simp only [pageNames, Finset.mem_union]
      exact Or.inr (mem_pageNames rest p k h2 hk)

/-! ### Helper lemmas: pre-check and reconciliation -/

theorem pre_check_some : ∀ (l : List KeyToAdd) (s : Finset String) (kd : KeyToAdd),
    l.find? (fun k => decide (k.key ∈ s)) = some kd →
    pre_check l s = .error ("The key `" ++ kd.key ++ "` already exists")
  | [], _, _, h => by simp at h
  | k :: rest, s, kd, h => by
    by_cases hk : k.key ∈ s
    · rw [List.find?_cons_of_pos rest (by simpa using hk)] at h
      cases h
      unfold pre_check
      rw [if_pos hk]
    · rw [List.find?_cons_of_neg rest (by simpa using hk)] at h
      unfold pre_check
      rw [if_neg hk]
      exact pre_check_some rest s kd h

theorem pre_check_none : ∀ (l : List KeyToAdd) (s : Finset String),
    l.find? (fun k => decide (k.key ∈ s)) = none →
    pre_check l s = .ok ()
  | [], _, _ => rfl
  | k :: rest, s, h => by
    by_cases hk : k.key ∈ s
    · rw [List.find?_cons_of_pos rest (by simpa using hk)] at h
      cases h
    · rw [List.find?_cons_of_neg rest (by simpa using hk)] at h
      unfold pre_check
      rw [if_neg hk]
      exact pre_check_none rest s h

theorem filters_not_both_nil (l : List KeyToAdd) (q : KeyToAdd → Bool) (hne : l ≠ []) :
    ¬ (l.filter q = [] ∧ l.filter (fun a => !q a) = []) := by
  match l with
  | [] => exact absurd rfl hne
  | x :: xs =>
    rintro ⟨h1, h2⟩
    by_cases hx : q x
    · rw [List.filter_cons_of_pos hx] at h1
      cases h1
    · rw [List.filter_cons_of_pos (by simpa using hx)] at h2
      cases h2

theorem reconcile_eq (requested : List KeyToAdd) (keys : List KeyResponse)
    (hne : requested ≠ []) :
    reconcile requested keys =
      ((requested.filter (fun k => decide (k.key ∈ createdKeys keys))).map
          (fun k => Line.success k.key) ++
        (requested.filter (fun k => !decide (k.key ∈ createdKeys keys))).map
          (fun k => Line.failure k.key),
       if requested.filter (fun k => !decide (k.key ∈ createdKeys keys)) = [] then
         .ok ()
       else
         .error "Failed to create some keys") := by
  unfold reconcile
  rw [List.partition_eq_filter_filter]
  simp only [Function.comp_def]
  rw [if_neg (filters_not_both_nil requested _ hne)]
  by_cases hnc : requested.filter (fun k => !decide (k.key ∈ createdKeys keys)) = []
  · rw [if_pos hnc, if_pos hnc, hnc]
    simp
  · rw [if_neg hnc, if_neg hnc]

/-! ### Helper lemmas: input decoding -/

theorem mem_restFields {fields : List (String × Json)} {name : String} {v : Json}
    (hname : name ≠ "key" ∧ name ≠ "tags") :
    (name, v) ∈ restFields fields ↔ (name, v) ∈ fields := by
  unfold restFields
  rw [List.mem_filter]
  simp [hname]

theorem decodeTranslation_ok (l : List (String × Json)) (tr : Translation)
    (h : decodeTranslation l = .ok tr) :
    (∃ s, l = [("translation", Json.str s)] ∧ tr = .singular s) ∨
    (∃ fs, l = [("translations", Json.obj fs)] ∧
      ∃ sg pl, tr = .plural sg pl) := by
  match l with
  | [] => exact absurd h (by simp [decodeTranslation])
  | (name, v) :: [] =>
    simp only [decodeTranslation] at h
    by_cases h1 : name = "translation"
    · rw [if_pos h1] at h
      split at h
      · left
        cases h
        exact ⟨_, by rw [h1], rfl⟩
      · exact Except.noConfusion h
    · rw [if_neg h1] at h
      by_cases h2 : name = "translations"
      · rw [if_pos h2] at h
        split at h
        · split at h
          · right
            cases h
            exact ⟨_, by rw [h2], _, _, rfl⟩
          · exact Except.noConfusion h
        · exact Except.noConfusion h
      · rw [if_neg h2] at h
        exact Except.noConfusion h
  | _ :: _ :: _ => exact absurd h (by simp [decodeTranslation])

theorem decodeKeyToAdd_ok (j : Json) (kta : KeyToAdd)
    (h : decodeKeyToAdd j = .ok kta) :
    ∃ fields, j = .obj fields ∧
      decodeTranslation (restFields fields) = .ok kta.translation := by
  match j with
  | .obj fields =>
    refine ⟨fields, rfl, ?_⟩
    simp only [decodeKeyToAdd] at h
    split at h
    · split at h
      · split at h
        next tr htr =>
          cases h
          exact htr
        next e he => exact Except.noConfusion h
      · exact Except.noConfusion h
    · exact Except.noConfusion h
    · exact Except.noConfusion h
  | .null | .bool _ | .num _ | .str _ | .arr _ => exact Except.noConfusion h

/-! ### Small generic helpers -/

theorem isOkB_false {α : Type} {x : Except String α} (h : isOkB x = false) :
    ∃ e, x = .error e := by
  cases x with
  | error e => exact ⟨e, rfl⟩
  | ok a => exact absurd h (by simp [isOkB])

theorem find?_append_first {α : Type} (pred : α → Bool) :
    ∀ (pre : List α) (p : α) (post : List α),
    (∀ q ∈ pre, pred q = false) → pred p = true →
    List.find? pred (pre ++ p :: post) = some p
  | [], p, post, _, hp => by
    rw [List.nil_append]
    exact List.find?_cons_of_pos post hp
  | q :: pre, p, post, hpre, hp => by
    rw [List.cons_append, List.find?_cons_of_neg _ (by simp [hpre q (by simp)])]
    exact find?_append_first pred pre p post (fun r hr => hpre r (by simp [hr])) hp

/-! ### C1: pagination -/

/-- C1: for every sequence of remote key pages (all satisfying the
per-platform invariant, so that listing succeeds), `all_keys` requests
pages 1, 2, 3, ... in order with page size 1000, stops exactly at the
first page strictly shorter than 1000 (a full page always triggers one
more request), and returns the deduplicated union of the validated names
of the pages it consumed. -/
theorem C1_pagination (pages : List (List KeyName))
    (hcons : ∀ p ∈ pages, ∀ k ∈ p, consistent k) :
    all_keys pages =
      (.ok (pageNames (pages.take (requestCount pages))),
       List.range' 1 (requestCount pages)) := by
  unfold all_keys
  rw [allKeysLoop_ok pages ∅ 1 hcons, Finset.empty_union]

/-- C1 witness: pages of sizes [1000, 1000, 400] issue exactly the three
requests for pages 1, 2, 3 and return the deduplicated union; a single
page of exactly 1000 keys issues a second request before terminating. -/
theorem C1_pagination_witness :
    all_keys pages3 = (.ok (pageNames (pages3.take 3)), [1, 2, 3]) ∧
    all_keys pages1 = (.ok (pageNames (pages1.take 2)), [1, 2]) := by
  have hca : ∀ p ∈ pages3, ∀ k ∈ p, consistent k := by
    intro p hp k hk
    simp only [pages3, List.mem_cons, List.not_mem_nil, or_false] at hp
    rcases hp with rfl | rfl | rfl <;>
      (have hke := List.eq_of_mem_replicate hk; subst hke; decide)
  have hcb : ∀ p ∈ pages1, ∀ k ∈ p, consistent k := by
    intro p hp k hk
    simp only [pages1, List.mem_cons, List.not_mem_nil, or_false] at hp
    rcases hp with rfl
    have hke := List.eq_of_mem_replicate hk
    subst hke
    decide
  have hrc3 : requestCount pages3 = 3 := by
    unfold requestCount pages3
    rw [List.takeWhile_cons_of_pos (by simp only [List.length_replicate]; decide),
        List.takeWhile_cons_of_pos (by simp only [List.length_replicate]; decide),
        List.takeWhile_cons_of_neg (by simp only [List.length_replicate]; decide)]
    rfl
  have hrc1 : requestCount pages1 = 2 := by
    unfold requestCount pages1
    rw [List.takeWhile_cons_of_pos (by simp only [List.length_replicate]; decide)]
    rfl
  constructor
  · rw [C1_pagination pages3 hca, hrc3]
    rfl
  · rw [C1_pagination pages1 hcb, hrc1]
    rfl

/-! ### C2: response-shape disambiguation -/

/-- C2: for every bulk-create response body, `create_keys` decodes it as
both the success shape and the error shape and branches on which decode
succeeds: success-shape only proceeds with the created-keys list
(reconciliation); error-shape only returns an error; both or neither
yields the ambiguous/unparseable-response error — the function is total,
so no panic and no silent preference of one shape. -/
theorem C2_response_disambiguation (keys_to_create : List KeyToAdd) (resp : Json) :
    (∀ kr, decodeKeysResponse resp = .ok kr →
      isOkB (decodeErrorResponse resp) = false →
      create_keys keys_to_create resp = reconcile keys_to_create kr.keys)
    ∧ (∀ er, isOkB (decodeKeysResponse resp) = false →
      decodeErrorResponse resp = .ok er →
      ∃ msg, create_keys keys_to_create resp = ([], .error msg))
    ∧ (∀ kr er, decodeKeysResponse resp = .ok kr →
      decodeErrorResponse resp = .ok er →
      create_keys keys_to_create resp =
        ([], .error "Lokalise request both failed and succeeded...?"))
    ∧ (isOkB (decodeKeysResponse resp) = false →
      isOkB (decodeErrorResponse resp) = false →
      create_keys keys_to_create resp =
        ([], .error "Failed to parse lokalise response")) := by
  refine ⟨?_, ?_, ?_, ?_⟩
  · intro kr hk he
    obtain ⟨e, hee⟩ := isOkB_false he
    simp only [create_keys, hk, hee]
  · intro er hk he
    obtain ⟨e, hee⟩ := isOkB_false hk
    by_cases hm : er.error.message = "Unauthorized"
    · exact ⟨"Lokalise request failed\n" ++
        "Got 401 unauthorized. Please ensure your auth token is correct and has both read and write permissions",
        by simp only [create_keys, hee, he, if_pos hm]⟩
    · exact ⟨"Lokalise request failed\nGot " ++ toString er.error.code ++ " " ++
        er.error.message,
        by simp only [create_keys, hee, he, if_neg hm]⟩
  · intro kr er hk he
    simp only [create_keys, hk, he]
  · intro hk he
    obtain ⟨e1, he1⟩ := isOkB_false hk
    obtain ⟨e2, he2⟩ := isOkB_false he
    simp only [create_keys, he1, he2]

/-- C2 witness: a body carrying both shapes yields the ambiguous-response
error; a body decoding as neither shape yields the unparseable-response
error. -/
theorem C2_response_disambiguation_witness :
    create_keys [] bothResp =
      ([], .error "Lokalise request both failed and succeeded...?") ∧
    create_keys [] Json.null =
      ([], .error "Failed to parse lokalise response") := by
  constructor
  · exact (C2_response_disambiguation [] bothResp).2.2.1 ⟨[]⟩ ⟨⟨1, "m"⟩⟩ rfl rfl
  · exact (C2_response_disambiguation [] Json.null).2.2.2 rfl rfl

/-! ### C3: per-platform name invariant -/

/-- C3: if any key of a requested page has four per-platform names that are
not all identical, `all_keys` fails with the platform error and returns no
partial key set; if every key of every page is consistent, the listing
succeeds and each consumed key's shared name is in the resulting set. -/
theorem C3_platform_invariant (pages : List (List KeyName)) :
    ((∃ p ∈ pages.take (requestCount pages), ∃ k ∈ p, ¬ consistent k) →
      (all_keys pages).1 = .error platformErr)
    ∧ ((∀ p ∈ pages, ∀ k ∈ p, consistent k) →
      ∃ s, (all_keys pages).1 = .ok s ∧
        ∀ p ∈ pages.take (requestCount pages), ∀ k ∈ p, k.ios ∈ s) := by
  constructor
  · exact fun h => allKeysLoop_error pages ∅ 1 h
  · intro h
    refine ⟨pageNames (pages.take (requestCount pages)), ?_, ?_⟩
    · unfold all_keys
      rw [allKeysLoop_ok pages ∅ 1 h, Finset.empty_union]
    · intro p hp k hk
      exact mem_pageNames _ p k hp hk

/-- C3 witness: a page with a key named differently per platform makes the
listing fail with the platform error; a consistent page succeeds and all
its shared names are in the returned set. -/
theorem C3_platform_invariant_witness :
    (all_keys [[kBad]]).1 = .error platformErr ∧
    ∃ s, (all_keys [[kA]]).1 = .ok s ∧
      ∀ p ∈ [[kA]].take (requestCount [[kA]]), ∀ k ∈ p, k.ios ∈ s := by
  constructor
  · exact (C3_platform_invariant [[kBad]]).1 (by decide)
  · exact (C3_platform_invariant [[kA]]).2 (by decide)

/-! ### C7: remote error message -/

/-- C7: for every response decoding as the error shape only, `create_keys`
returns the specific actionable token-permission message when the remote
message is exactly `Unauthorized`, and otherwise an error containing the
remote code and message verbatim. -/
theorem C7_error_messages (keys_to_create : List KeyToAdd) (resp : Json)
    (er : ErrorResponse)
    (hk : isOkB (decodeKeysResponse resp) = false)
    (he : decodeErrorResponse resp = .ok er) :
    (er.error.message = "Unauthorized" →
      create_keys keys_to_create resp =
        ([], .error ("Lokalise request failed\n" ++
          "Got 401 unauthorized. Please ensure your auth token is correct and has both read and write permissions")))
    ∧ (er.error.message ≠ "Unauthorized" →
      create_keys keys_to_create resp =
        ([], .error ("Lokalise request failed\nGot " ++
          toString er.error.code ++ " " ++ er.error.message))) := by
  obtain ⟨e, hee⟩ := isOkB_false hk
  constructor
  · intro hm
    simp only [create_keys, hee, he, if_pos hm]
  · intro hm
    simp only [create_keys, hee, he, if_neg hm]

/-- C7 witness: the `Unauthorized` body produces the token-permission
message, and a `500 boom` body surfaces code and message verbatim. -/
theorem C7_error_messages_witness :
    create_keys [] errRespUnauthorized =
      ([], .error ("Lokalise request failed\n" ++
        "Got 401 unauthorized. Please ensure your auth token is correct and has both read and write permissions")) ∧
    create_keys [] errRespOther =
      ([], .error "Lokalise request failed\nGot 500 boom") := by
  constructor
  · exact (C7_error_messages [] errRespUnauthorized ⟨⟨401, "Unauthorized"⟩⟩ rfl rfl).1 rfl
  · have h := (C7_error_messages [] errRespOther ⟨⟨500, "boom"⟩⟩ rfl rfl).2 (by decide)
    rw [h]
    rfl

/-! ### C5: post-create reconciliation -/

/-- C5: for every non-empty requested key list, reconciliation against the
confirmed-created name set (the ios field of each response key) emits one
success line per confirmed key and one failure line per unconfirmed key,
each group preserving input order, and the overall result is an error if
and only if at least one requested key is not confirmed. -/
theorem C5_reconciliation (requested : List KeyToAdd) (keys : List KeyResponse)
    (hne : requested ≠ []) :
    (reconcile requested keys).1 =
      (requested.filter (fun k => decide (k.key ∈ createdKeys keys))).map
        (fun k => Line.success k.key) ++
      (requested.filter (fun k => !decide (k.key ∈ createdKeys keys))).map
        (fun k => Line.failure k.key)
    ∧ ((reconcile requested keys).2 = .ok () ↔
        ∀ k ∈ requested, k.key ∈ createdKeys keys)
    ∧ ((reconcile requested keys).2 = .error "Failed to create some keys" ↔
        ∃ k ∈ requested, k.key ∉ createdKeys keys) := by
  rw [reconcile_eq requested keys hne]
  have hiff :
      (requested.filter (fun k => !decide (k.key ∈ createdKeys keys)) = []) ↔
      ∀ k ∈ requested, k.key ∈ createdKeys keys := by
    rw [List.filter_eq_nil_iff]
    constructor
    · intro h k hk
      simpa using h k hk
    · intro h k hk
      simpa using h k hk
  refine ⟨rfl, ?_, ?_⟩
  · by_cases hf : requested.filter (fun k => !decide (k.key ∈ createdKeys keys)) = []
    · rw [if_pos hf]
      exact iff_of_true rfl (hiff.mp hf)
    · rw [if_neg hf]
      exact iff_of_false (fun h => Except.noConfusion h) (fun hall => hf (hiff.mpr hall))
  · by_cases hf : requested.filter (fun k => !decide (k.key ∈ createdKeys keys)) = []
    · rw [if_pos hf]
      refine iff_of_false (fun h => Except.noConfusion h) ?_
      rintro ⟨k, hk, hkn⟩
      exact hkn (hiff.mp hf k hk)
    · rw [if_neg hf]
      refine iff_of_true rfl ?_
      rw [List.filter_eq_nil_iff] at hf
      push_neg at hf
      obtain ⟨k, hk, hkp⟩ := hf
      exact ⟨k, hk, by simpa using hkp⟩

/-- C5 witness: requesting a, b, c with a response confirming only a and c
prints the successes a, c (in input order) then the failure b, and the
overall result is the failure error. -/
theorem C5_reconciliation_witness :
    (reconcile req5 keys5).1 =
      [Line.success "a", Line.success "c", Line.failure "b"] ∧
    (reconcile req5 keys5).2 = .error "Failed to create some keys" := by
  have h := C5_reconciliation req5 keys5 (by decide)
  refine ⟨?_, ?_⟩
  · rw [h.1]
    rfl
  · exact h.2.2.mpr ⟨sampleKey "b", by decide, by decide⟩

/-! ### C8: exactly one translation form -/

/-- C8: decoding a key element succeeds only when exactly one of the two
translation forms — a `translation` string field or a `translations`
object field — is left over after the declared fields, and the decoded
variant corresponds to that form; an element supplying both forms, or
neither, is rejected with a parse error. -/
theorem C8_translation_forms (fields : List (String × Json)) :
    ((∃ v, ("translation", v) ∈ fields) → (∃ w, ("translations", w) ∈ fields) →
      isOkB (decodeKeyToAdd (.obj fields)) = false)
    ∧ ((¬ ∃ v, ("translation", v) ∈ fields) →
       (¬ ∃ w, ("translations", w) ∈ fields) →
      isOkB (decodeKeyToAdd (.obj fields)) = false)
    ∧ (∀ kta, decodeKeyToAdd (.obj fields) = .ok kta →
      ((∃ s, restFields fields = [("translation", Json.str s)] ∧
          kta.translation = .singular s) ∨
       (∃ fs, restFields fields = [("translations", Json.obj fs)] ∧
          ∃ sg pl, kta.translation = .plural sg pl))) := by
  have hforms : ∀ kta, decodeKeyToAdd (.obj fields) = .ok kta →
      ((∃ s, restFields fields = [("translation", Json.str s)] ∧
          kta.translation = .singular s) ∨
       (∃ fs, restFields fields = [("translations", Json.obj fs)] ∧
          ∃ sg pl, kta.translation = .plural sg pl)) := by
    intro kta h
    obtain ⟨fields2, heq, htr⟩ := decodeKeyToAdd_ok _ _ h
    cases heq
    exact decodeTranslation_ok _ _ htr
  refine ⟨?_, ?_, hforms⟩
  · rintro ⟨v, hv⟩ ⟨w, hw⟩
    cases hdec : decodeKeyToAdd (.obj fields) with
    | error e => rfl
    | ok kta =>
      exfalso
      have hw2 : ("translations", w) ∈ restFields fields :=
        (mem_restFields (by decide)).mpr hw
      have hv2 : ("translation", v) ∈ restFields fields :=
        (mem_restFields (by decide)).mpr hv
      rcases hforms kta hdec with ⟨s, hrest, _⟩ | ⟨fs, hrest, _⟩
      · rw [hrest] at hw2
        simp at hw2
      · rw [hrest] at hv2
        simp at hv2
  · intro hv hw
    cases hdec : decodeKeyToAdd (.obj fields) with
    | error e => rfl
    | ok kta =>
      exfalso
      rcases hforms kta hdec with ⟨s, hrest, _⟩ | ⟨fs, hrest, _⟩
      · exact hv ⟨Json.str s,
          List.mem_of_mem_filter (hrest ▸ List.mem_singleton_self _)⟩
      · exact hw ⟨Json.obj fs,
          List.mem_of_mem_filter (hrest ▸ List.mem_singleton_self _)⟩

/-- C8 witness: a key element carrying both translation forms is rejected,
and one carrying neither form is rejected. -/
theorem C8_translation_forms_witness :
    isOkB (decodeKeyToAdd (.obj
      [("key", .str "k"), ("translation", .str "t"),
       ("translations", .obj [("singular", .str "s"), ("plural", .str "p")])])) = false ∧
    isOkB (decodeKeyToAdd (.obj [("key", .str "k")])) = false := by
  constructor
  · exact (C8_translation_forms _).1 ⟨Json.str "t", by simp⟩
      ⟨Json.obj [("singular", .str "s"), ("plural", .str "p")], by simp⟩
  · exact (C8_translation_forms _).2.1
      (by rintro ⟨v, hv⟩; simp at hv)
      (by rintro ⟨w, hw⟩; simp at hw)

/-! ### C4: duplicate pre-check -/

/-- C4: with the listing succeeded, if some requested key name is already
in the existing remote set, the run fails with a duplicate-key error naming
the first such key in input order and the create request is never issued;
if no requested name is in the existing set, the pre-check passes and the
create request is issued. -/
theorem C4_duplicate_pre_check (opt : Opt) (file : Json) (tok : String)
    (projects : List Project) (pages : List (List KeyName)) (createResp : Json)
    (data : Data) (project : Project) (s : Finset String) (reqs : List Nat)
    (hfile : decodeData file = .ok data)
    (hdry : opt.dry_run = false)
    (hproj : projects.find? (fun p => decide (p.name = opt.project)) = some project)
    (hkeys : all_keys pages = (.ok s, reqs)) :
    (∀ kd, data.keys.find? (fun k => decide (k.key ∈ s)) = some kd →
      try_main opt file (some tok) projects pages createResp =
        ⟨[], .error ("The key `" ++ kd.key ++ "` already exists"),
         ⟨true, true, reqs, some project.id, none⟩⟩)
    ∧ (data.keys.find? (fun k => decide (k.key ∈ s)) = none →
      (try_main opt file (some tok) projects pages createResp).effects.createTarget =
        some project.id) := by
  constructor
  · intro kd hkd
    have hpc := pre_check_some data.keys s kd hkd
    simp [try_main, hfile, hdry, hproj, hkeys, hpc]
  · intro hnone
    have hpc := pre_check_none data.keys s hnone
    simp [try_main, hfile, hdry, hproj, hkeys, hpc]

/-- C4 witness: requesting `greeting` when `greeting` already exists
remotely fails with the duplicate-key error and no create request; when it
does not exist, the create request is issued. -/
theorem C4_duplicate_pre_check_witness :
    try_main ⟨"myproj", false⟩ oneKeyFile (some "t") [proj1, proj2]
        [[kGreeting]] okRespEmpty =
      ⟨[], .error "The key `greeting` already exists",
       ⟨true, true, [1], some "id2", none⟩⟩ ∧
    (try_main ⟨"myproj", false⟩ oneKeyFile (some "t") [proj1, proj2]
        [[kA]] okRespEmpty).effects.createTarget = some "id2" := by
  constructor
  · exact (C4_duplicate_pre_check ⟨"myproj", false⟩ oneKeyFile "t" [proj1, proj2]
      [[kGreeting]] okRespEmpty ⟨[⟨"greeting", .singular "Hello", []⟩]⟩ proj2
      (insert "greeting" ∅) [1] rfl rfl rfl rfl).1
      ⟨"greeting", .singular "Hello", []⟩ rfl
  · exact (C4_duplicate_pre_check ⟨"myproj", false⟩ oneKeyFile "t" [proj1, proj2]
      [[kA]] okRespEmpty ⟨[⟨"greeting", .singular "Hello", []⟩]⟩ proj2
      (insert "a" ∅) [1] rfl rfl rfl rfl).2 rfl

/-! ### C9: dry-run -/

/-- C9: for every input file that decodes successfully, with the dry-run
flag set the run prints the decoded key list and succeeds, without reading
the token environment variable and without issuing any remote request —
in particular a missing token is not an error. -/
theorem C9_dry_run (opt : Opt) (file : Json) (token : Option String)
    (projects : List Project) (pages : List (List KeyName)) (createResp : Json)
    (data : Data)
    (hfile : decodeData file = .ok data) (hdry : opt.dry_run = true) :
    try_main opt file token projects pages createResp =
      ⟨[Line.keysDump data.keys], .ok (), ⟨false, false, [], none, none⟩⟩ := by
  simp [try_main, hfile, hdry]

/-- C9 witness: a dry run with no token set prints the decoded keys,
succeeds, reads no env var and issues no request. -/
theorem C9_dry_run_witness :
    try_main ⟨"myproj", true⟩ oneKeyFile none [] [] Json.null =
      ⟨[Line.keysDump [⟨"greeting", .singular "Hello", []⟩]], .ok (),
       ⟨false, false, [], none, none⟩⟩ :=
  C9_dry_run ⟨"myproj", true⟩ oneKeyFile none [] [] Json.null
    ⟨[⟨"greeting", .singular "Hello", []⟩]⟩ rfl rfl

/-! ### C10: project selection -/

/-- C10: the run selects the first project (in the order returned by the
projects request) whose name exactly equals the requested name, and targets
the key-listing request at its id; if no project name matches exactly, the
run fails with the project-not-found error before issuing any key-listing
request. -/
theorem C10_project_selection (opt : Opt) (file : Json) (tok : String)
    (projects : List Project) (pages : List (List KeyName)) (createResp : Json)
    (data : Data)
    (hfile : decodeData file = .ok data) (hdry : opt.dry_run = false) :
    (∀ pre p post, projects = pre ++ p :: post →
      (∀ q ∈ pre, q.name ≠ opt.project) → p.name = opt.project →
      (try_main opt file (some tok) projects pages createResp).effects.keyListTarget =
        some p.id)
    ∧ ((∀ q ∈ projects, q.name ≠ opt.project) →
      try_main opt file (some tok) projects pages createResp =
        ⟨[], .error ("No project name \x27" ++ opt.project ++ "\x27 was found"),
         ⟨true, true, [], none, none⟩⟩) := by
  constructor
  · intro pre p post hsplit hpre hp
    have hfind : projects.find? (fun q => decide (q.name = opt.project)) = some p := by
      rw [hsplit]
      exact find?_append_first _ pre p post
        (fun q hq => by simpa using hpre q hq) (by simpa using hp)
    rcases hak : all_keys pages with ⟨r, reqs⟩
    rcases r with e | s2
    · simp [try_main, hfile, hdry, hfind, hak]
    · rcases hpc : pre_check data.keys s2 with e | u
      · simp [try_main, hfile, hdry, hfind, hak, hpc]
      · simp [try_main, hfile, hdry, hfind, hak, hpc]
  · intro hnone
    have hfind : projects.find? (fun q => decide (q.name = opt.project)) = none := by
      rw [List.find?_eq_none]
      intro q hq
      simpa using hnone q hq
    simp [try_main, hfile, hdry, hfind]

/-- C10 witness: with two projects named `myproj`, the first one (id2) is
selected as the key-listing target; with no matching project, the run fails
with the project-not-found error and issues no key-listing request. -/
theorem C10_project_selection_witness :
    (try_main ⟨"myproj", false⟩ oneKeyFile (some "t") [proj1, proj2, proj3]
        [] Json.null).effects.keyListTarget = some "id2" ∧
    try_main ⟨"myproj", false⟩ oneKeyFile (some "t") [proj1] [] Json.null =
      ⟨[], .error "No project name \x27myproj\x27 was found",
       ⟨true, true, [], none, none⟩⟩ := by
  constructor
  · exact (C10_project_selection ⟨"myproj", false⟩ oneKeyFile "t"
      [proj1, proj2, proj3] [] Json.null ⟨[⟨"greeting", .singular "Hello", []⟩]⟩
      rfl rfl).1 [proj1] proj2 [proj3] rfl (by decide) rfl
  · exact (C10_project_selection ⟨"myproj", false⟩ oneKeyFile "t"
      [proj1] [] Json.null ⟨[⟨"greeting", .singular "Hello", []⟩]⟩
      rfl rfl).2 (by decide)

/-! ### C6: empty input -/

/-- C6 counterexample: with an empty keys list the run does print the
nothing-to-do report and succeed, but the bulk-create request IS issued
(the create target effect is set to the project id), refuting the claim
that the run short-circuits without issuing a create request. -/
theorem C6_counterexample :
    (try_main ⟨"myproj", false⟩ emptyKeysFile (some "t") [proj1, proj2]
        [[]] okRespEmpty).lines = [Line.nothingToDo] ∧
    (try_main ⟨"myproj", false⟩ emptyKeysFile (some "t") [proj1, proj2]
        [[]] okRespEmpty).result = .ok () ∧
    (try_main ⟨"myproj", false⟩ emptyKeysFile (some "t") [proj1, proj2]
        [[]] okRespEmpty).effects.createTarget = some "id2" :=
  ⟨rfl, rfl, rfl⟩

/-- C6 (amended): for an input whose keys list is empty, the run still
issues the bulk-create request (with an empty keys list); when the
response decodes as the success shape only, the run prints the
nothing-to-do report and succeeds. -/
theorem C6_empty_input (opt : Opt) (file : Json) (tok : String)
    (projects : List Project) (pages : List (List KeyName)) (createResp : Json)
    (data : Data) (project : Project) (s : Finset String) (reqs : List Nat)
    (kr : KeysResponse)
    (hfile : decodeData file = .ok data) (hempty : data.keys = [])
    (hdry : opt.dry_run = false)
    (hproj : projects.find? (fun p => decide (p.name = opt.project)) = some project)
    (hkeys : all_keys pages = (.ok s, reqs))
    (hresp : decodeKeysResponse createResp = .ok kr)
    (herr : isOkB (decodeErrorResponse createResp) = false) :
    try_main opt file (some tok) projects pages createResp =
      ⟨[Line.nothingToDo], .ok (),
       ⟨true, true, reqs, some project.id, some project.id⟩⟩ := by
  obtain ⟨e, hee⟩ := isOkB_false herr
  simp [try_main, hfile, hdry, hproj, hkeys, hempty, pre_check,
    create_keys, hresp, hee, reconcile]

/-- C6 witness for the amended claim: a concrete empty-keys run reports
nothing-to-do, succeeds, and has issued the create request. -/
theorem C6_empty_input_witness :
    try_main ⟨"myproj", false⟩ emptyKeysFile (some "t") [proj2] [[kA]] okRespEmpty =
      ⟨[Line.nothingToDo], .ok (),
       ⟨true, true, [1], some "id2", some "id2"⟩⟩ :=
  C6_empty_input ⟨"myproj", false⟩ emptyKeysFile "t" [proj2] [[kA]] okRespEmpty
    ⟨[]⟩ proj2 (insert "a" ∅) [1] ⟨[]⟩ rfl rfl rfl rfl rfl rfl rfl
